import Mathlib

/-!
Verification of the deployment orchestration core of the
InTeach/aws-codebuild-run-build action.

The development shallowly embeds the source's orchestration logic:

* `waitForBuildEndTime` — the deployment status-poll loop
  (code-build.js lines 293-333, identical in the second variant of the
  module, lines 302-342): the sequence of `getDeployment` responses the
  service would return on successive fetches is passed in as a list, and
  the function also reports how many fetches it issued and which sleep
  durations it used, in order.
* `scale`, `waitFor` — the capacity controller's scale-up / instance
  discovery and the readiness poller, with their interval/timeout
  bookkeeping taken verbatim from the source; per-poll service responses
  are passed in as functions of the poll index.
* `updateTags` — the tag-set semantics of the tag manager.
* `branchOptions` / the branch-to-profile resolution.
* `runDeploy0` (code-build.js lines 21-75) and `runDeploy1` (the second
  variant, lines 45-111) — the orchestrators, embedded as sequential
  compositions in a trace-writer structure `TraceResult` that records
  which of the module's own functions were called, in order, and where
  the run stopped on error.

JavaScript `throw` is modelled as `Except.error`.  Where the source throws
`new Error(obj)` with a plain-object argument, the Error constructor's
stringification is modelled too (`jsNewError`): the thrown error's message
is "[object Object]" and none of the object's fields survive on it.  A bare
`reject()` in a poll loop is `RunError.rejected`.  The `branchOptions[...]`
property read models the prototype chain of the object literal: reads of
Object.prototype member names yield truthy inherited values, not undefined.
-/

/-! ### Deployment service data model (as read by the source) -/

/-- The `deploymentInfo` part of a `getDeployment` response: the source reads
`deploymentStatus.deploymentInfo.status` and
`deploymentStatus.deploymentInfo.deploymentOverview` (code-build.js 300-301).
The overview is an opaque payload, modelled as a string. -/
structure DeploymentInfo where
  status : String
  deploymentOverview : String
deriving DecidableEq

/-- The error payload the source reads on a failure terminal:
`deploymentStatus.errorInformation.code` / `.message` (code-build.js 330-331). -/
structure ErrorInformation where
  code : String
  message : String
deriving DecidableEq

/-- One `getDeployment` response, with the fields at the places the source
reads them from. -/
structure GetDeploymentResponse where
  deploymentInfo : DeploymentInfo
  errorInformation : ErrorInformation
deriving DecidableEq

/-- The record returned on success (code-build.js 307-311). -/
structure DeployResult where
  status : String
  overview : String
  deploymentId : String
deriving DecidableEq

/-- A JavaScript `Error` object as the rest of the program can observe it:
its `message` string and the `code` and `deploymentId` properties that
index.js's failure handler reads off caught errors (`error.code`,
`error.deploymentId`), absent unless something set them. -/
structure JsError where
  message : String
  code : Option String
  deploymentId : Option String
deriving DecidableEq

/-- The object literal the status-poll loop builds for its throw
(code-build.js 329-331). -/
structure ThrowPayload where
  deploymentId : String
  code : String
  message : String
deriving DecidableEq

/-- `new Error(v)` for a plain-object argument `v`: the constructor
stringifies a non-undefined, non-string argument, so the Error's message is
`String(v) = "[object Object]"`, and none of `v`'s own properties are copied
onto the Error — the thrown error carries no `code` and no
`deploymentId`. -/
def jsNewError : ThrowPayload → JsError :=
  fun _ => ⟨"[object Object]", none, none⟩

/-- Errors of the status-poll loop: the Error thrown at a failure terminal
(code-build.js 328-332), or the supplied response list ran out (the source
would keep polling; the list models the finitely many responses an
execution actually observes). -/
inductive DeployError where
  | thrown (e : JsError)
  | outOfResponses
deriving DecidableEq

/-- `ongoingStatus` (code-build.js 302). -/
def ongoingStatus : List String := ["Created", "Queued", "InProgress", "Ready"]

/-- `waitForBuildEndTime` (code-build.js 293-333).  `wait` and `backOff`
default to 30000 and 15000 ms at the first call (line 294); on an ongoing
status the loop sleeps `newWait = wait + backOff` and recurses with
`wait := newWait` (lines 318-322).  The embedding consumes the list of
successive `getDeployment` responses and additionally returns the number of
fetches issued and the list of sleep durations, in order. -/
def waitForBuildEndTime (wait backOff : Nat) (deploymentId : String) :
    List GetDeploymentResponse → Except DeployError DeployResult × Nat × List Nat
  | [] => (Except.error DeployError.outOfResponses, 0, [])
  | r :: rest =>
    let status := r.deploymentInfo.status
    let overview := r.deploymentInfo.deploymentOverview
    if status = "Succeeded" then
      (Except.ok ⟨status, overview, deploymentId⟩, 1, [])
    else if status ∈ ongoingStatus then
      let newWait := wait + backOff
      let next := waitForBuildEndTime newWait backOff deploymentId rest
      (next.1, next.2.1 + 1, newWait :: next.2.2)
    else
      (Except.error (DeployError.thrown (jsNewError
        ⟨deploymentId, r.errorInformation.code, r.errorInformation.message⟩)),
        1, [])

/-! ### C1: success after N-1 ongoing polls -/

/-- C1: For a status-fetch sequence that is InProgress on polls 1..N-1 and
Succeeded on the Nth poll, `waitForBuildEndTime` issues exactly N fetches and
returns status Succeeded together with the overview of the Nth response and
the deployment id.  (`pre` is the list of the first N-1 responses, `r` the
Nth; responses after the Nth are never fetched.) -/
theorem waitForBuildEndTime_success_after_inProgress
    (pre : List GetDeploymentResponse) (r : GetDeploymentResponse)
    (rest : List GetDeploymentResponse) (wait backOff : Nat) (id : String)
    (hpre : ∀ p ∈ pre, p.deploymentInfo.status = "InProgress")
    (hr : r.deploymentInfo.status = "Succeeded") :
    (waitForBuildEndTime wait backOff id (pre ++ r :: rest)).1 =
      Except.ok ⟨"Succeeded", r.deploymentInfo.deploymentOverview, id⟩ ∧
    (waitForBuildEndTime wait backOff id (pre ++ r :: rest)).2.1 =
      pre.length + 1 := by
  induction pre generalizing wait with
  | nil =>
    simp [waitForBuildEndTime, hr]
  | cons p pre ih =>
    have hp : p.deploymentInfo.status = "InProgress" := hpre p (by simp)
    have hpre' : ∀ q ∈ pre, q.deploymentInfo.status = "InProgress" :=
      fun q hq => hpre q (by simp [hq])
    have hne : ¬ p.deploymentInfo.status = "Succeeded" := by
      rw [hp]; decide
    have hmem : p.deploymentInfo.status ∈ ongoingStatus := by
      rw [hp]; decide
    have h2 := ih (wait + backOff) hpre'
    simp only [List.cons_append, waitForBuildEndTime, if_neg hne, if_pos hmem]
    exact ⟨h2.1, by simp [h2.2]⟩

/-- Witness for C1 at a concrete two-poll-then-success run. -/
theorem waitForBuildEndTime_success_after_inProgress_witness :
    (waitForBuildEndTime 30000 15000 "d-1"
        ([⟨⟨"InProgress", "o1"⟩, ⟨"", ""⟩⟩, ⟨⟨"InProgress", "o2"⟩, ⟨"", ""⟩⟩] ++
          ⟨⟨"Succeeded", "o3"⟩, ⟨"", ""⟩⟩ :: [])).1 =
      Except.ok ⟨"Succeeded", "o3", "d-1"⟩ ∧
    (waitForBuildEndTime 30000 15000 "d-1"
        ([⟨⟨"InProgress", "o1"⟩, ⟨"", ""⟩⟩, ⟨⟨"InProgress", "o2"⟩, ⟨"", ""⟩⟩] ++
          ⟨⟨"Succeeded", "o3"⟩, ⟨"", ""⟩⟩ :: [])).2.1 =
      [⟨⟨"InProgress", "o1"⟩, ⟨"", ""⟩⟩,
        (⟨⟨"InProgress", "o2"⟩, ⟨"", ""⟩⟩ : GetDeploymentResponse)].length + 1 :=
  waitForBuildEndTime_success_after_inProgress _ _ [] 30000 15000 "d-1"
    (by decide) (by decide)

/-! ### C2: sleep durations are non-decreasing and bounded below -/

/-- Every sleep duration recorded by the poll loop is at least
`wait + backOff` (the first sleep is exactly that, later ones only add more
backoff). -/
theorem waitForBuildEndTime_sleep_lower_bound (backOff : Nat) (id : String) :
    ∀ (rs : List GetDeploymentResponse) (wait : Nat),
      ∀ s ∈ (waitForBuildEndTime wait backOff id rs).2.2, wait + backOff ≤ s := by
  intro rs
  induction rs with
  | nil => intro wait s hs; simp [waitForBuildEndTime] at hs
  | cons r rest ih =>
    intro wait s hs
    by_cases h1 : r.deploymentInfo.status = "Succeeded"
    · simp [waitForBuildEndTime, h1] at hs
    · by_cases h2 : r.deploymentInfo.status ∈ ongoingStatus
      · simp only [waitForBuildEndTime, if_neg h1, if_pos h2, List.mem_cons] at hs
        rcases hs with rfl | hs
        · exact le_refl _
        · have := ih (wait + backOff) s hs
          omega
      · simp [waitForBuildEndTime, h1, h2] at hs

/-- C2: across one run of the status-poll loop the recorded sleep durations
are non-decreasing from one retry to the next, and every one of them is at
least the configured base wait (`wait`, default 30000 ms). -/
theorem waitForBuildEndTime_sleeps_monotone (backOff : Nat) (id : String) :
    ∀ (rs : List GetDeploymentResponse) (wait : Nat),
      List.Chain' (· ≤ ·) (waitForBuildEndTime wait backOff id rs).2.2 ∧
      ∀ s ∈ (waitForBuildEndTime wait backOff id rs).2.2, wait ≤ s := by
  intro rs
  induction rs with
  | nil => intro wait; simp [waitForBuildEndTime]
  | cons r rest ih =>
    intro wait
    by_cases h1 : r.deploymentInfo.status = "Succeeded"
    · simp [waitForBuildEndTime, h1]
    · by_cases h2 : r.deploymentInfo.status ∈ ongoingStatus
      · simp only [waitForBuildEndTime, if_neg h1, if_pos h2]
        refine ⟨List.Chain'.cons' (ih (wait + backOff)).1 ?_, ?_⟩
        · intro s hs
          have := waitForBuildEndTime_sleep_lower_bound backOff id rest
            (wait + backOff) s (List.mem_of_mem_head? hs)
          omega
        · intro s hs
          rcases List.mem_cons.mp hs with rfl | hs
          · omega
          · have := (ih (wait + backOff)).2 s hs
            omega
      · simp [waitForBuildEndTime, h1, h2]

/-! ### C3: what the failure-terminal throw actually carries -/

/-- C3: on a fetched status that is neither Succeeded nor ongoing, the poll
loop executes `throw new Error({deploymentId, code, message})`
(code-build.js 328-332) — but the Error constructor stringifies the object,
so the thrown error's message is "[object Object]" and it carries neither
the code nor the deployment id: the response's error payload is lost, not
propagated as the claim describes. -/
theorem waitForBuildEndTime_failure_terminal
    (r : GetDeploymentResponse) (rest : List GetDeploymentResponse)
    (wait backOff : Nat) (id : String)
    (h1 : r.deploymentInfo.status ≠ "Succeeded")
    (h2 : r.deploymentInfo.status ∉ ongoingStatus) :
    (waitForBuildEndTime wait backOff id (r :: rest)).1 =
      Except.error (DeployError.thrown
        ⟨"[object Object]", none, none⟩) := by
  simp [waitForBuildEndTime, h1, h2, jsNewError]

/-- Witness for C3 at a concrete Failed response: the HEALTH_CONSTRAINTS
payload does not survive onto the thrown error. -/
theorem waitForBuildEndTime_failure_terminal_witness :
    (waitForBuildEndTime 30000 15000 "d-2"
        ([(⟨⟨"Failed", "ov"⟩, ⟨"HEALTH_CONSTRAINTS", "no healthy host"⟩⟩ :
          GetDeploymentResponse)])).1 =
      Except.error (DeployError.thrown ⟨"[object Object]", none, none⟩) :=
  waitForBuildEndTime_failure_terminal _ [] 30000 15000 "d-2"
    (by decide) (by decide)

/-! ### Errors of the orchestration steps -/

/-- Run-level errors: a JavaScript `ReferenceError` (an undefined identifier
was called), a `throw new Error("...")` with a string message, a bare
`reject()` inside a `setInterval` poll loop, a rejected AWS SDK waiter, or a
propagated status-poll error. -/
inductive RunError where
  | referenceError (name : String)
  | message (msg : String)
  | rejected
  | waiterFailed
  | deployError (e : DeployError)
deriving DecidableEq

/-! ### The setInterval-based poll loops

Both `scale`'s instance-discovery loop (variant file lines 194-222) and
`waitFor`'s readiness loop (code-build.js lines 253-282) have the same
shape: every `INTERVAL_TIME = 10 * 1000` ms, first check
`totalTime / 1000 > TIMEOUT` and reject, otherwise issue one fetch, resolve
on a hit, else add `INTERVAL_TIME` to `totalTime` and go round again.  The
embedding makes the loop body explicit, indexed by the poll number `k`;
`fuel` is an upper bound on the number of iterations, used only to exhibit
termination — both instantiations below supply enough fuel that the
timeout check always fires first (proved in the lemmas). -/

def intervalPollGo {α : Type} (fetch : Nat → Option α) (timeoutS : Nat) :
    Nat → Nat → Nat → Except RunError α
  | 0, _, _ => Except.error RunError.rejected
  | fuel + 1, k, totalTime =>
    if totalTime / 1000 > timeoutS then Except.error RunError.rejected
    else
      match fetch k with
      | some a => Except.ok a
      | none => intervalPollGo fetch timeoutS fuel (k + 1) (totalTime + 10000)

/-- The loop either resolves with a value or rejects. -/
theorem intervalPollGo_total {α : Type} (fetch : Nat → Option α) (t : Nat) :
    ∀ fuel k totalTime, (∃ a, intervalPollGo fetch t fuel k totalTime = Except.ok a) ∨
      intervalPollGo fetch t fuel k totalTime = Except.error RunError.rejected := by
  intro fuel
  induction fuel with
  | zero => intro k totalTime; right; rfl
  | succ fuel ih =>
    intro k totalTime
    simp only [intervalPollGo]
    by_cases hc : totalTime / 1000 > t
    · right; simp [hc]
    · rcases hf : fetch k with _ | a
      · simpa [hc, hf] using ih (k + 1) (totalTime + 10000)
      · left; exact ⟨a, by simp [hc, hf]⟩

/-- Characterization of a successful poll loop: starting at poll `k` (with
`totalTime = k * 10000`, as maintained by the loop) and enough fuel, the loop
resolves with `a` exactly when some poll `j` with `10 * j ≤ timeout` is the
first to fetch a value, and that value is `a`. -/
theorem intervalPollGo_ok_iff {α : Type} (fetch : Nat → Option α) (t : Nat) :
    ∀ fuel k a, t / 10 < k + fuel →
      (intervalPollGo fetch t fuel k (k * 10000) = Except.ok a ↔
        ∃ j, k ≤ j ∧ j ≤ t / 10 ∧ fetch j = some a ∧
          ∀ i, k ≤ i → i < j → fetch i = none) := by
  intro fuel
  induction fuel with
  | zero =>
    intro k a hk
    simp only [intervalPollGo]
    constructor
    · intro h; cases h
    · rintro ⟨j, hkj, hjt, -, -⟩; omega
  | succ fuel ih =>
    intro k a hk
    have hdiv : k * 10000 / 1000 = 10 * k := by omega
    simp only [intervalPollGo, hdiv]
    by_cases hc : 10 * k > t
    · have hke : t / 10 < k := by omega
      simp only [if_pos hc]
      constructor
      · intro h; cases h
      · rintro ⟨j, hkj, hjt, -, -⟩; omega
    · have hkt : k ≤ t / 10 := by omega
      simp only [if_neg hc]
      rcases hf : fetch k with _ | b
      · have harg : k * 10000 + 10000 = (k + 1) * 10000 := by ring
        rw [harg]
        rw [ih (k + 1) a (by omega)]
        constructor
        · rintro ⟨j, hkj, hjt, hja, hmin⟩
          exact ⟨j, by omega, hjt, hja, fun i hki hij => by
            rcases Nat.eq_or_lt_of_le hki with rfl | hlt
            · exact hf
            · exact hmin i hlt hij⟩
        · rintro ⟨j, hkj, hjt, hja, hmin⟩
          have hjk : j ≠ k := fun hjk => by rw [hjk, hf] at hja; cases hja
          exact ⟨j, by omega, hjt, hja, fun i hki hij => hmin i (by omega) hij⟩
      · constructor
        · intro h
          have hba : b = a := by
            simpa using h
          exact ⟨k, le_refl k, hkt, hba ▸ hf, fun i hki hik => by omega⟩
        · rintro ⟨j, hkj, hjt, hja, hmin⟩
          rcases Nat.eq_or_lt_of_le hkj with rfl | hlt
          · rw [hf] at hja
            rw [Option.some.inj hja]
          · rw [hmin k (le_refl k) hlt] at hf; cases hf

/-! ### Capacity controller (`scale`, variant file lines 179-225) -/

/-- One entry of `describeInstanceStatus().InstanceStatuses`: the instance id
and the `Status` fields of `InstanceStatus.Details`. -/
structure InstanceEntry where
  instanceId : String
  detailStatuses : List String
deriving DecidableEq

/-- The discovery step of `scale` (variant file lines 207-213): the first
listed instance with an `initializing` detail status, if any. -/
def findInitializingInstance (entries : List InstanceEntry) : Option String :=
  (entries.find? fun e => e.detailStatuses.any fun s => s = "initializing").map
    fun e => e.instanceId

/-- `DesiredCapacity` as set by `scale` (variant file line 183). -/
def desiredCapacity (direction : String) : Nat :=
  if direction = "UP" then 2 else 1

/-- `scale` (variant file lines 179-225): sets the scaling group's desired
capacity (2 for UP, 1 for DOWN); for DOWN it returns at once (the JS
function returns `undefined`, which the caller ignores — modelled as `""`);
for UP it runs the discovery poll loop with `TIMEOUT = 60` s at 10-second
intervals.  `instancePolls k` is the `InstanceStatuses` listing returned by
the k-th `describeInstanceStatus` call.  The result pairs the capacity that
was set with the loop's outcome. -/
def scale (direction : String) (instancePolls : Nat → List InstanceEntry) :
    Nat × Except RunError String :=
  (desiredCapacity direction,
    if direction = "DOWN" then Except.ok ""
    else intervalPollGo (fun k => findInitializingInstance (instancePolls k)) 60 8 0 0)

/-- C7: `scale "UP"` sets the desired capacity to 2; if no poll within the
budget (polls 0..6, i.e. while `totalTime / 1000 ≤ 60`) lists an initializing
instance it rejects (discovery timeout); and if poll `k` within the budget is
the first to list one, the loop resolves with that instance's id. -/
theorem scale_up_spec (instancePolls : Nat → List InstanceEntry) :
    (scale "UP" instancePolls).1 = 2 ∧
    ((∀ k, k ≤ 6 → findInitializingInstance (instancePolls k) = none) →
      (scale "UP" instancePolls).2 = Except.error RunError.rejected) ∧
    (∀ k id, k ≤ 6 → findInitializingInstance (instancePolls k) = some id →
      (∀ j, j < k → findInitializingInstance (instancePolls j) = none) →
      (scale "UP" instancePolls).2 = Except.ok id) := by
  have hiff := intervalPollGo_ok_iff
    (fun k => findInitializingInstance (instancePolls k)) 60 8
  refine ⟨rfl, ?_, ?_⟩
  · intro hnone
    rcases intervalPollGo_total
        (fun k => findInitializingInstance (instancePolls k)) 60 8 0 0 with ⟨a, ha⟩ | hr
    · have := (hiff 0 a (by omega)).mp (by simpa using ha)
      rcases this with ⟨j, -, hjt, hja, -⟩
      rw [hnone j (by omega)] at hja
      cases hja
    · simpa [scale] using hr
  · intro k id hk hfind hmin
    have : intervalPollGo (fun k => findInitializingInstance (instancePolls k))
        60 8 0 (0 * 10000) = Except.ok id :=
      (hiff 0 id (by omega)).mpr
        ⟨k, by omega, by omega, hfind, fun i _ hik => hmin i hik⟩
    simpa [scale] using this

/-- Witness for C7: a listing that first shows an initializing instance on
poll 1. -/
theorem scale_up_spec_witness :
    (scale "UP" (fun k => if k = 1 then [⟨"i-0abc", ["initializing"]⟩] else [])).1 = 2 ∧
    (scale "UP" (fun k => if k = 1 then [⟨"i-0abc", ["initializing"]⟩] else [])).2 =
      Except.ok "i-0abc" := by
  have h := scale_up_spec (fun k => if k = 1 then [⟨"i-0abc", ["initializing"]⟩] else [])
  refine ⟨h.1, h.2.2 1 "i-0abc" (by omega) (by rfl) ?_⟩
  intro j hj
  have : j = 0 := by omega
  subst this
  rfl

/-! ### Readiness poller (`waitFor`, code-build.js lines 250-283) -/

/-- `waitFor` (code-build.js 250-283, identical in the variant at 259-292):
polls `describeInstanceStatus({InstanceIds:[id]})` every 10 seconds with
`TIMEOUT = 300` seconds; `statusPolls k` is the
`InstanceStatuses[0].InstanceStatus.Status` chain of the k-th poll (`none`
when an entry is missing).  Resolves (with no payload) on `"ok"`, rejects on
timeout. -/
def waitFor (statusPolls : Nat → Option String) : Except RunError Unit :=
  intervalPollGo
    (fun k => if statusPolls k = some "ok" then some () else none) 300 32 0 0

/-- C8: `waitFor` returns normally exactly when some poll within the budget
(polls 0..30, i.e. while `totalTime / 1000 ≤ 300`) observes status "ok";
otherwise it rejects (readiness timeout).  It carries no other result. -/
theorem waitFor_ok_iff (statusPolls : Nat → Option String) :
    (waitFor statusPolls = Except.ok () ↔
      ∃ k, k ≤ 30 ∧ statusPolls k = some "ok") ∧
    ((¬ ∃ k, k ≤ 30 ∧ statusPolls k = some "ok") →
      waitFor statusPolls = Except.error RunError.rejected) := by
  have hiff := intervalPollGo_ok_iff
    (fun k => if statusPolls k = some "ok" then some () else none) 300 32
  have hzero : (0 : Nat) * 10000 = 0 := by omega
  have main : waitFor statusPolls = Except.ok () ↔
      ∃ k, k ≤ 30 ∧ statusPolls k = some "ok" := by
    constructor
    · intro h
      have := (hiff 0 () (by omega)).mp (by simpa [waitFor, hzero] using h)
      rcases this with ⟨j, -, hjt, hja, -⟩
      refine ⟨j, by omega, ?_⟩
      by_cases hs : statusPolls j = some "ok"
      · exact hs
      · simp [hs] at hja
    · rintro ⟨k, hk, hok⟩
      have hex : ∃ n, statusPolls n = some "ok" ∧ n ≤ 30 := ⟨k, hok, hk⟩
      classical
      set j := Nat.find hex with hj
      have hspec := Nat.find_spec hex
      have : intervalPollGo
          (fun k => if statusPolls k = some "ok" then some () else none)
          300 32 0 (0 * 10000) = Except.ok () := by
        refine (hiff 0 () (by omega)).mpr ⟨j, by omega, by omega, by simp [hspec.1], ?_⟩
        intro i _ hij
        have hni := Nat.find_min hex hij
        have : ¬ statusPolls i = some "ok" := fun hsi => hni ⟨hsi, by omega⟩
        simp [this]
      simpa [waitFor, hzero] using this
  refine ⟨main, fun hn => ?_⟩
  rcases intervalPollGo_total
      (fun k => if statusPolls k = some "ok" then some () else none) 300 32 0 0 with ⟨a, ha⟩ | hr
  · exact absurd (main.mp (by cases a; simpa [waitFor] using ha)) hn
  · simpa [waitFor] using hr

/-- Witness for C8: an instance that reports "ok" immediately. -/
theorem waitFor_ok_iff_witness :
    waitFor (fun _ => some "ok") = Except.ok () :=
  (waitFor_ok_iff (fun _ => some "ok")).1.mpr ⟨0, by omega, rfl⟩

/-! ### Branch profiles and tag manager -/

/-- `NEW_INSTANCE_TAG` (line 8 of both module variants). -/
def NEW_INSTANCE_TAG : String := "CODEDEPLOY_TARGET"

/-- `DEPLOYED_INSTANCE_TAG` (line 9 of both module variants). -/
def DEPLOYED_INSTANCE_TAG : String := "ACTIVE_API_INSTANCE"

/-- One profile of the `branchOptions` table (variant file lines 21-43). -/
structure BranchOpts where
  applicationName : String
  deploymentGroupName : String
  autoscalingGroupName : String
  newInstanceTag : String
  deployedInstanceTag : String
deriving DecidableEq

/-- `branchOptions.master` (variant file lines 22-28). -/
def masterOpts : BranchOpts :=
  ⟨"InTeach-Academy", "Production-BlueGreen", "academy",
    NEW_INSTANCE_TAG, DEPLOYED_INSTANCE_TAG⟩

/-- `branchOptions.doctolib` (variant file lines 29-35). -/
def doctolibOpts : BranchOpts :=
  ⟨"Doctolib", "Doctolib-BlueGreen", "doctolib",
    NEW_INSTANCE_TAG ++ "_DOCTOLIB", DEPLOYED_INSTANCE_TAG ++ "_DOCTOLIB"⟩

/-- `branchOptions["feature/multibranch-deploy"]` (variant file lines 36-42),
textually identical to the doctolib profile. -/
def multibranchOpts : BranchOpts :=
  ⟨"Doctolib", "Doctolib-BlueGreen", "doctolib",
    NEW_INSTANCE_TAG ++ "_DOCTOLIB", DEPLOYED_INSTANCE_TAG ++ "_DOCTOLIB"⟩

/-- The property names every plain JavaScript object literal inherits from
Object.prototype.  A read of any of these on `branchOptions` yields the
inherited member (a function, or Object.prototype itself for __proto__) —
a truthy value, not undefined. -/
def objectPrototypeKeys : List String :=
  ["constructor", "hasOwnProperty", "isPrototypeOf", "propertyIsEnumerable",
    "toLocaleString", "toString", "valueOf", "__proto__",
    "__defineGetter__", "__defineSetter__", "__lookupGetter__",
    "__lookupSetter__"]

/-- What a property read on the `branchOptions` object literal can produce
when it is not undefined: one of the table's own profile entries, or a
member inherited from Object.prototype (recorded by its name). -/
inductive JsLookup where
  | ownProfile (opts : BranchOpts)
  | inherited (name : String)
deriving DecidableEq

/-- The `branchOptions[branchName]` property read (variant file lines 21-43
and 52): an own entry for the three table keys; for an Object.prototype
member name, the inherited member; `none` models undefined. -/
def branchOptions (branchName : String) : Option JsLookup :=
  if branchName = "master" then some (JsLookup.ownProfile masterOpts)
  else if branchName = "doctolib" then some (JsLookup.ownProfile doctolibOpts)
  else if branchName = "feature/multibranch-deploy" then
    some (JsLookup.ownProfile multibranchOpts)
  else if branchName ∈ objectPrototypeKeys then
    some (JsLookup.inherited branchName)
  else none

/-- `branchOptions[inputs.branchName] || branchOptions.master`
(variant file line 52): every defined lookup result here is an object or
function, hence truthy, so undefined is the only case in which `||` takes
the master fallback. -/
def resolveOpts (branchName : String) : JsLookup :=
  (branchOptions branchName).getD (JsLookup.ownProfile masterOpts)

/-- C10 counterexample: "toString" is none of the three table keys, yet the
property read finds the truthy Object.prototype member, the `||` fallback is
skipped, and the resolved value is the inherited function — not the master
profile the claim promises for every non-key branch name. -/
theorem resolveOpts_prototype_counterexample :
    "toString" ≠ "master" ∧ "toString" ≠ "doctolib" ∧
    "toString" ≠ "feature/multibranch-deploy" ∧
    resolveOpts "toString" = JsLookup.inherited "toString" ∧
    resolveOpts "toString" ≠ JsLookup.ownProfile masterOpts := by
  refine ⟨by decide, by decide, by decide, ?_, ?_⟩ <;> decide

/-- C10 (amended): any branch name outside the three table keys that is
also not an Object.prototype property name (this includes the empty string,
which is also what an unset input yields) falls through to the master
profile: production application "InTeach-Academy", deployment group
"Production-BlueGreen", scaling group "academy". -/
theorem resolveOpts_default (b : String)
    (h1 : b ≠ "master") (h2 : b ≠ "doctolib")
    (h3 : b ≠ "feature/multibranch-deploy")
    (h4 : b ∉ objectPrototypeKeys) :
    resolveOpts b = JsLookup.ownProfile masterOpts ∧
    masterOpts.applicationName = "InTeach-Academy" ∧
    masterOpts.deploymentGroupName = "Production-BlueGreen" ∧
    masterOpts.autoscalingGroupName = "academy" := by
  refine ⟨?_, rfl, rfl, rfl⟩
  simp [resolveOpts, branchOptions, h1, h2, h3, h4]

/-- Witness for C10 at the empty branch name. -/
theorem resolveOpts_default_witness :
    resolveOpts "" = JsLookup.ownProfile masterOpts ∧
    masterOpts.applicationName = "InTeach-Academy" ∧
    masterOpts.deploymentGroupName = "Production-BlueGreen" ∧
    masterOpts.autoscalingGroupName = "academy" :=
  resolveOpts_default "" (by decide) (by decide) (by decide) (by decide)

/-- Reading a profile field off the value `opts` resolves to (variant file
line 66 reads `opts.autoscalingGroupName`): an inherited Object.prototype
member has no such property, so the read yields JS undefined. -/
def autoscalingGroupNameOf : JsLookup → Option String
  | JsLookup.ownProfile o => some o.autoscalingGroupName
  | JsLookup.inherited _ => none

/-- The coercion `String.prototype.includes` applies to its search argument
inside `getAutoScalingGroup` (variant file line 171): undefined is
stringified to "undefined". -/
def jsStringOf : Option String → String
  | some s => s
  | none => "undefined"

/-- Tag-set semantics of `updateTags` (variant file lines 227-257), acting on
the set of tag keys an instance carries: with `typeOfTag = "target"` a
`createTags` request adds the profile's new-instance tag; otherwise a
`deleteTags` request removes the new-instance tag and a `createTags` request
adds the deployed (active) tag.  The two requests of the second branch are
issued concurrently via `Promise.all`; this definition applies
delete-then-create, `updateTagsCreateFirst` below is the other
interleaving. -/
def updateTags (tags : Finset String) (typeOfTag : String) (opts : BranchOpts) :
    Finset String :=
  if typeOfTag = "target" then insert opts.newInstanceTag tags
  else insert opts.deployedInstanceTag (tags.erase opts.newInstanceTag)

/-- The create-then-delete interleaving of the non-"target" branch of
`updateTags`. -/
def updateTagsCreateFirst (tags : Finset String) (opts : BranchOpts) :
    Finset String :=
  (insert opts.deployedInstanceTag tags).erase opts.newInstanceTag

/-- C9: starting from an instance with no deployment-role tags, marking it as
target (`updateTags _ "target"`) and then as active (`updateTags _ ""`, with
both of the concurrent requests completing — in either order) leaves the
role-tag set equal to exactly the singleton of the active tag; the
new-target tag does not remain. -/
theorem updateTags_target_then_active (opts : BranchOpts)
    (h : opts.newInstanceTag ≠ opts.deployedInstanceTag) :
    updateTags (updateTags ∅ "target" opts) "" opts =
      {opts.deployedInstanceTag} ∧
    updateTagsCreateFirst (updateTags ∅ "target" opts) opts =
      {opts.deployedInstanceTag} := by
  have e0 : updateTags ∅ "target" opts = insert opts.newInstanceTag ∅ := by
    simp [updateTags]
  have e1 : (insert opts.newInstanceTag (∅ : Finset String)).erase
      opts.newInstanceTag = ∅ :=
    Finset.erase_insert (Finset.not_mem_empty _)
  constructor
  · rw [e0]
    simp only [updateTags, e1]
    rw [if_neg (by decide : ¬("" : String) = "target"), insert_emptyc_eq]
  · rw [e0]
    simp only [updateTagsCreateFirst]
    rw [Finset.erase_insert_of_ne (Ne.symm h), e1, insert_emptyc_eq]

/-- Witness for C9 at the master profile's tag names. -/
theorem updateTags_target_then_active_witness :
    updateTags (updateTags ∅ "target" masterOpts) "" masterOpts =
      {masterOpts.deployedInstanceTag} ∧
    updateTagsCreateFirst (updateTags ∅ "target" masterOpts) masterOpts =
      {masterOpts.deployedInstanceTag} :=
  updateTags_target_then_active masterOpts (by decide)

/-! ### The orchestrators

`runDeploy` exists in two variants: code-build.js lines 21-75 (embedded as
`runDeploy0`) and the variant file lines 45-111 (embedded as `runDeploy1`,
the one with the branch-profile table, the `waitForDeployment` step and the
detach/reattach `updateDeploymentGroup` pair).  Each embedded run returns a
`TraceResult`: the ordered list of the module's own function calls it
performed, and the final outcome.  The outcomes of the external services are
supplied by a `World`. -/

/-- The observable calls `runDeploy` makes to the module's own functions. -/
inductive Call where
  | getAutoScalingGroup (name : String)
  | scaleCall (direction : String) (groupName : String)
  | waitForCall (instanceId : String)
  | waitForDeployment
  | updateTagsCall (instanceId : String) (typeOfTag : String)
  | updateDeploymentGroup (autoScalingGroups : List String)
  | updateDeploymentGroupFixed
  | deploy
deriving DecidableEq

/-- The ordered call trace of a run together with its outcome. -/
structure TraceResult (α : Type) where
  trace : List Call
  result : Except RunError α

/-- Sequencing of awaited steps: an error stops the run, keeping the calls
made so far; otherwise the continuation's calls are appended. -/
def TraceResult.bind {α β : Type} (x : TraceResult α) (f : α → TraceResult β) :
    TraceResult β :=
  match x.result with
  | Except.error e => ⟨x.trace, Except.error e⟩
  | Except.ok a => ⟨x.trace ++ (f a).trace, (f a).result⟩

theorem TraceResult.bind_error {α β : Type} (x : TraceResult α)
    (f : α → TraceResult β) (e : RunError) (h : x.result = Except.error e) :
    TraceResult.bind x f = ⟨x.trace, Except.error e⟩ := by
  unfold TraceResult.bind
  rw [h]

theorem TraceResult.bind_ok {α β : Type} (x : TraceResult α)
    (f : α → TraceResult β) (a : α) (h : x.result = Except.ok a) :
    TraceResult.bind x f = ⟨x.trace ++ (f a).trace, (f a).result⟩ := by
  unfold TraceResult.bind
  rw [h]

/-- The external world: the responses each service call of one run would
receive. -/
structure World where
  autoScalingGroups : List String
  instancePolls : Nat → List InstanceEntry
  statusPolls : Nat → Option String
  inProgressDeployments : List String
  deploymentWaitOk : Bool
  newDeploymentId : String
  deployResponses : List GetDeploymentResponse

/-- The action's inputs (githubInputs, variant file lines 344-372). -/
structure Inputs where
  applicationName : String
  deploymentConfigName : String
  deploymentGroupName : String
  fileExistsBehavior : String
  s3Bucket : String
  s3Key : String
  bundleType : String
  deploymentType : String
  branchName : String
deriving DecidableEq

/-- `getAutoScalingGroup` (variant file lines 163-177): the first listed
group whose lower-cased name contains the profile's scaling-group name;
throws "Autoscaling group not found" otherwise. -/
def asgLookup (name : String) (w : World) : Except RunError String :=
  match w.autoScalingGroups.find? (fun g => g.toLower.containsSubstr name) with
  | some g => Except.ok g
  | none => Except.error (RunError.message "Autoscaling group not found")

def getAutoScalingGroupT (name : String) (w : World) : TraceResult String :=
  ⟨[Call.getAutoScalingGroup name], asgLookup name w⟩

def scaleT (direction : String) (groupName : String) (w : World) :
    TraceResult String :=
  ⟨[Call.scaleCall direction groupName], (scale direction w.instancePolls).2⟩

def waitForT (instanceId : String) (w : World) : TraceResult Unit :=
  ⟨[Call.waitForCall instanceId], waitFor w.statusPolls⟩

/-- `waitForDeployment` (variant file lines 113-139): list in-progress
deployments; if none, return at once; otherwise await the SDK's
deploymentSuccessful waiter, whose rejection is `waiterFailed`. -/
def waitForDeploymentRes (w : World) : Except RunError Unit :=
  match w.inProgressDeployments.head? with
  | none => Except.ok ()
  | some _ =>
    if w.deploymentWaitOk then Except.ok () else Except.error RunError.waiterFailed

def waitForDeploymentT (w : World) : TraceResult Unit :=
  ⟨[Call.waitForDeployment], waitForDeploymentRes w⟩

/-- Tag requests always complete in the trace model; their effect on the tag
set is `updateTags` above. -/
def updateTagsT (instanceId typeOfTag : String) : TraceResult Unit :=
  ⟨[Call.updateTagsCall instanceId typeOfTag], Except.ok ()⟩

def updateDeploymentGroupT (autoScalingGroups : List String) : TraceResult Unit :=
  ⟨[Call.updateDeploymentGroup autoScalingGroups], Except.ok ()⟩

/-- `updateDeploymentGroup` of code-build.js (lines 77-91), which only resets
the EC2 tag filters and takes no scaling-group list. -/
def updateDeploymentGroupFixedT : TraceResult Unit :=
  ⟨[Call.updateDeploymentGroupFixed], Except.ok ()⟩

/-- `deploy` (code-build.js 285-291): `createDeployment` yields
`w.newDeploymentId`, then the status-poll loop runs with the default
`wait = 30000`, `backOff = 15000`. -/
def deployRes (w : World) : Except RunError DeployResult :=
  match (waitForBuildEndTime 30000 15000 w.newDeploymentId w.deployResponses).1 with
  | Except.ok r => Except.ok r
  | Except.error e => Except.error (RunError.deployError e)

def deployT (w : World) : TraceResult DeployResult :=
  ⟨[Call.deploy], deployRes w⟩

/-- The single-check discovery of code-build.js's `scale` (lines 181-216):
after the fixed 45-second sleep it lists instance statuses once and throws
if no initializing instance is found. -/
def scale0 (direction : String) (instancePolls : Nat → List InstanceEntry) :
    Nat × Except RunError String :=
  (desiredCapacity direction,
    if direction = "DOWN" then Except.ok ""
    else
      match findInitializingInstance (instancePolls 0) with
      | some id => Except.ok id
      | none => Except.error (RunError.message "No instance initiliazed found"))

def scale0T (direction : String) (groupName : String) (w : World) :
    TraceResult String :=
  ⟨[Call.scaleCall direction groupName], (scale0 direction w.instancePolls).2⟩

/-- `runDeploy` of code-build.js (lines 21-75): in-place goes straight to
`deploy(sdk, params)`; blue-green runs scale-up, readiness wait, target
tagging, the fixed deployment-group reset, the deployment, active tagging
and scale-down.  (The second `updateTags(instanceId)` call passes no
`typeOfTag`; `undefined` takes the same non-"target" branch as `""`.) -/
def runDeploy0 (inputs : Inputs) (w : World) : TraceResult DeployResult :=
  if inputs.deploymentType = "in-place" then
    deployT w
  else
    TraceResult.bind (getAutoScalingGroupT "academy" w) fun asgName =>
    TraceResult.bind (scale0T "UP" asgName w) fun instanceId =>
    TraceResult.bind (waitForT instanceId w) fun _ =>
    TraceResult.bind (updateTagsT instanceId "target") fun _ =>
    TraceResult.bind updateDeploymentGroupFixedT fun _ =>
    TraceResult.bind (deployT w) fun deployInfos =>
    TraceResult.bind (updateTagsT instanceId "") fun _ =>
    TraceResult.bind (scale0T "DOWN" asgName w) fun _ =>
    ⟨[], Except.ok deployInfos⟩

/-- `runDeploy` of the variant file (lines 45-111).  Its in-place branch
(line 63) reads `return depoy(sdk, params)` — `depoy` is not defined
anywhere in the file, so the branch raises a ReferenceError before any call
is made.  The blue-green branch resolves the branch profile, scales up,
waits for readiness and for any in-progress deployment, tags the target,
detaches the scaling group from the deployment group, deploys, reattaches
the scaling group, tags the instance active, and scales down. -/
def runDeploy1 (inputs : Inputs) (w : World) : TraceResult DeployResult :=
  let opts := resolveOpts inputs.branchName
  if inputs.deploymentType = "in-place" then
    ⟨[], Except.error (RunError.referenceError "depoy")⟩
  else
    TraceResult.bind
      (getAutoScalingGroupT (jsStringOf (autoscalingGroupNameOf opts)) w)
      fun asgName =>
    TraceResult.bind (scaleT "UP" asgName w) fun instanceId =>
    TraceResult.bind (waitForT instanceId w) fun _ =>
    TraceResult.bind (waitForDeploymentT w) fun _ =>
    TraceResult.bind (updateTagsT instanceId "target") fun _ =>
    TraceResult.bind (updateDeploymentGroupT []) fun _ =>
    TraceResult.bind (deployT w) fun deployInfos =>
    TraceResult.bind (updateDeploymentGroupT [asgName]) fun _ =>
    TraceResult.bind (updateTagsT instanceId "") fun _ =>
    TraceResult.bind (scaleT "DOWN" asgName w) fun _ =>
    ⟨[], Except.ok deployInfos⟩

/-! ### Which outcomes each step can produce -/

theorem scale_up_total (instancePolls : Nat → List InstanceEntry) :
    (∃ i, (scale "UP" instancePolls).2 = Except.ok i) ∨
      (scale "UP" instancePolls).2 = Except.error RunError.rejected := by
  rcases intervalPollGo_total
      (fun k => findInitializingInstance (instancePolls k)) 60 8 0 0 with ⟨a, ha⟩ | hr
  · exact Or.inl ⟨a, by simpa [scale] using ha⟩
  · exact Or.inr (by simpa [scale] using hr)

theorem waitFor_total (statusPolls : Nat → Option String) :
    waitFor statusPolls = Except.ok () ∨
      waitFor statusPolls = Except.error RunError.rejected := by
  rcases intervalPollGo_total
      (fun k => if statusPolls k = some "ok" then some () else none)
      300 32 0 0 with ⟨a, ha⟩ | hr
  · left; cases a; exact ha
  · right; exact hr

theorem waitForDeploymentRes_total (w : World) :
    waitForDeploymentRes w = Except.ok () ∨
      waitForDeploymentRes w = Except.error RunError.waiterFailed := by
  unfold waitForDeploymentRes
  rcases w.inProgressDeployments.head? with _ | d
  · left; rfl
  · by_cases hb : w.deploymentWaitOk <;> simp [hb]

theorem scale_down_result (instancePolls : Nat → List InstanceEntry) :
    (scale "DOWN" instancePolls).2 = Except.ok "" := by
  simp [scale]

theorem deployRes_total (w : World) :
    (∃ r, deployRes w = Except.ok r ∧
      (waitForBuildEndTime 30000 15000 w.newDeploymentId w.deployResponses).1 =
        Except.ok r) ∨
    (∃ e, deployRes w = Except.error (RunError.deployError e) ∧
      (waitForBuildEndTime 30000 15000 w.newDeploymentId w.deployResponses).1 =
        Except.error e) := by
  unfold deployRes
  rcases hb : (waitForBuildEndTime 30000 15000 w.newDeploymentId
      w.deployResponses).1 with e | r
  · exact Or.inr ⟨e, rfl, rfl⟩
  · exact Or.inl ⟨r, rfl, rfl⟩

/-! ### Trace shapes of the blue-green orchestrator -/

/-- A run of the variant orchestrator on a non-in-place input stops at the
first failing step; its call trace is the corresponding prefix of the
canonical sequence `getAutoScalingGroup, scale UP, waitFor,
waitForDeployment, updateTags target, updateDeploymentGroup [],
deploy, updateDeploymentGroup [asg], updateTags "", scale DOWN`. -/
theorem runDeploy1_shape (inputs : Inputs) (w : World)
    (h : inputs.deploymentType ≠ "in-place") :
    (∃ e, runDeploy1 inputs w =
      ⟨[Call.getAutoScalingGroup
          (jsStringOf (autoscalingGroupNameOf (resolveOpts inputs.branchName)))],
        Except.error e⟩) ∨
    (∃ g e, runDeploy1 inputs w =
      ⟨[Call.getAutoScalingGroup
          (jsStringOf (autoscalingGroupNameOf (resolveOpts inputs.branchName))),
        Call.scaleCall "UP" g], Except.error e⟩) ∨
    (∃ g i, runDeploy1 inputs w =
      ⟨[Call.getAutoScalingGroup
          (jsStringOf (autoscalingGroupNameOf (resolveOpts inputs.branchName))),
        Call.scaleCall "UP" g, Call.waitForCall i],
        Except.error RunError.rejected⟩) ∨
    (∃ g i, runDeploy1 inputs w =
      ⟨[Call.getAutoScalingGroup
          (jsStringOf (autoscalingGroupNameOf (resolveOpts inputs.branchName))),
        Call.scaleCall "UP" g, Call.waitForCall i, Call.waitForDeployment],
        Except.error RunError.waiterFailed⟩) ∨
    (∃ g i e, runDeploy1 inputs w =
      ⟨[Call.getAutoScalingGroup
          (jsStringOf (autoscalingGroupNameOf (resolveOpts inputs.branchName))),
        Call.scaleCall "UP" g, Call.waitForCall i, Call.waitForDeployment,
        Call.updateTagsCall i "target", Call.updateDeploymentGroup [],
        Call.deploy], Except.error (RunError.deployError e)⟩ ∧
      (waitForBuildEndTime 30000 15000 w.newDeploymentId w.deployResponses).1 =
        Except.error e) ∨
    (∃ g i r, runDeploy1 inputs w =
      ⟨[Call.getAutoScalingGroup
          (jsStringOf (autoscalingGroupNameOf (resolveOpts inputs.branchName))),
        Call.scaleCall "UP" g, Call.waitForCall i, Call.waitForDeployment,
        Call.updateTagsCall i "target", Call.updateDeploymentGroup [],
        Call.deploy, Call.updateDeploymentGroup [g], Call.updateTagsCall i "",
        Call.scaleCall "DOWN" g], Except.ok r⟩ ∧
      (waitForBuildEndTime 30000 15000 w.newDeploymentId w.deployResponses).1 =
        Except.ok r) := by
  rcases hA : asgLookup (jsStringOf (autoscalingGroupNameOf (resolveOpts inputs.branchName))) w
      with e | g
  · refine Or.inl ⟨e, ?_⟩
    simp [runDeploy1, if_neg h, getAutoScalingGroupT, TraceResult.bind, hA]
  · rcases scale_up_total w.instancePolls with ⟨i, hS⟩ | hS
    · rcases waitFor_total w.statusPolls with hW | hW
      · rcases waitForDeploymentRes_total w with hD | hD
        · rcases deployRes_total w with ⟨r, hB, hB'⟩ | ⟨e, hB, hB'⟩
          · refine Or.inr (Or.inr (Or.inr (Or.inr (Or.inr ⟨g, i, r, ?_, hB'⟩))))
            simp [runDeploy1, if_neg h, getAutoScalingGroupT, scaleT, waitForT,
              waitForDeploymentT, updateTagsT, updateDeploymentGroupT, deployT,
              TraceResult.bind, hA, hS, hW, hD, hB,
              scale_down_result w.instancePolls]
          · refine Or.inr (Or.inr (Or.inr (Or.inr (Or.inl ⟨g, i, e, ?_, hB'⟩))))
            simp [runDeploy1, if_neg h, getAutoScalingGroupT, scaleT, waitForT,
              waitForDeploymentT, updateTagsT, updateDeploymentGroupT, deployT,
              TraceResult.bind, hA, hS, hW, hD, hB]
        · refine Or.inr (Or.inr (Or.inr (Or.inl ⟨g, i, ?_⟩)))
          simp [runDeploy1, if_neg h, getAutoScalingGroupT, scaleT, waitForT,
            waitForDeploymentT, TraceResult.bind, hA, hS, hW, hD]
      · refine Or.inr (Or.inr (Or.inl ⟨g, i, ?_⟩))
        simp [runDeploy1, if_neg h, getAutoScalingGroupT, scaleT, waitForT,
          TraceResult.bind, hA, hS, hW]
    · refine Or.inr (Or.inl ⟨g, RunError.rejected, ?_⟩)
      simp [runDeploy1, if_neg h, getAutoScalingGroupT, scaleT,
        TraceResult.bind, hA, hS]

/-! ### C4: the in-place branch -/

/-- C4: on an in-place input, the code-build.js orchestrator performs only
the deployment submission and status polling (its whole trace is the single
`deploy` call) and returns `deploy(sdk, params)`'s result; the variant
orchestrator instead raises a ReferenceError before any call, because its
in-place branch invokes the undefined identifier `depoy` (variant file line
63). -/
theorem runDeploy_inPlace (inputs : Inputs) (w : World)
    (h : inputs.deploymentType = "in-place") :
    runDeploy0 inputs w = ⟨[Call.deploy], deployRes w⟩ ∧
    (∀ c ∈ (runDeploy0 inputs w).trace, c = Call.deploy) ∧
    runDeploy1 inputs w = ⟨[], Except.error (RunError.referenceError "depoy")⟩ := by
  refine ⟨?_, ?_, ?_⟩
  · simp [runDeploy0, h, deployT]
  · simp [runDeploy0, h, deployT]
  · simp [runDeploy1, h]

/-- A world for concrete runs: one scaling group, no instances, no pending
deployments, and no `getDeployment` responses. -/
def sampleWorld : World :=
  ⟨["production-academy-asg"], fun _ => [], fun _ => none, [], true,
    "d-sample", []⟩

/-- Concrete inputs asking for an in-place deployment. -/
def inPlaceInputs : Inputs :=
  ⟨"InTeach-Academy", "CodeDeployDefault.AllAtOnce", "Production-BlueGreen",
    "DISALLOW", "deploy-bucket", "bundle.zip", "zip", "in-place", "master"⟩

/-- Concrete inputs asking for a blue-green deployment. -/
def blueGreenInputs : Inputs :=
  ⟨"InTeach-Academy", "CodeDeployDefault.AllAtOnce", "Production-BlueGreen",
    "DISALLOW", "deploy-bucket", "bundle.zip", "zip", "blue-green", "master"⟩

/-- Witness for C4 at concrete in-place inputs. -/
theorem runDeploy_inPlace_witness :
    runDeploy0 inPlaceInputs sampleWorld = ⟨[Call.deploy], deployRes sampleWorld⟩ ∧
    (∀ c ∈ (runDeploy0 inPlaceInputs sampleWorld).trace, c = Call.deploy) ∧
    runDeploy1 inPlaceInputs sampleWorld =
      ⟨[], Except.error (RunError.referenceError "depoy")⟩ :=
  runDeploy_inPlace inPlaceInputs sampleWorld rfl

/-! ### C5: detach before deploy, reattach before active tagging -/

def isDeployCall : Call → Bool
  | Call.deploy => true
  | _ => false

def isDetachCall : Call → Bool
  | Call.updateDeploymentGroup [] => true
  | _ => false

def isReattachCall : Call → Bool
  | Call.updateDeploymentGroup (_ :: _) => true
  | _ => false

def isActiveTagCall : Call → Bool
  | Call.updateTagsCall _ s => s == ""
  | _ => false

/-- Scans a trace left to right: `true` when every call satisfying `q` is
preceded by some call satisfying `p`. -/
def guardedBy (p q : Call → Bool) : List Call → Bool
  | [] => true
  | c :: t => if q c then false else if p c then true else guardedBy p q t

theorem guardedBy_sound (p q : Call → Bool) :
    ∀ t, guardedBy p q t = true →
      ∀ l₁ l₂ c, t = l₁ ++ c :: l₂ → q c = true → ∃ a ∈ l₁, p a = true := by
  intro t
  induction t with
  | nil =>
    intro _ l₁ l₂ c heq _
    exact absurd heq (by simp)
  | cons d t ih =>
    intro hg l₁ l₂ c heq hq
    by_cases hqd : q d = true
    · rw [guardedBy, if_pos hqd] at hg
      cases hg
    · rw [guardedBy, if_neg hqd] at hg
      cases l₁ with
      | nil =>
        simp only [List.nil_append, List.cons.injEq] at heq
        rcases heq with ⟨rfl, -⟩
        exact absurd hq hqd
      | cons x l₁ =>
        simp only [List.cons_append, List.cons.injEq] at heq
        rcases heq with ⟨rfl, heq2⟩
        by_cases hpd : p d = true
        · exact ⟨d, by simp, hpd⟩
        · rw [if_neg hpd] at hg
          rcases ih hg l₁ l₂ c heq2 hq with ⟨a, ha, hpa⟩
          exact ⟨a, by simp [ha], hpa⟩

/-- C5: in any non-in-place run of the variant orchestrator, every
deployment submission is preceded in the call trace by the detach call
(`updateDeploymentGroup` with the empty scaling-group list), and every
active-tagging call (`updateTags` without the "target" type) is preceded by
the reattach call (`updateDeploymentGroup` with a non-empty scaling-group
list, which in the trace carries the found group's name). -/
theorem runDeploy1_bracketing (inputs : Inputs) (w : World)
    (h : inputs.deploymentType ≠ "in-place") :
    (∀ l₁ l₂ c, (runDeploy1 inputs w).trace = l₁ ++ c :: l₂ →
      isDeployCall c = true → ∃ a ∈ l₁, isDetachCall a = true) ∧
    (∀ l₁ l₂ c, (runDeploy1 inputs w).trace = l₁ ++ c :: l₂ →
      isActiveTagCall c = true → ∃ a ∈ l₁, isReattachCall a = true) := by
  refine ⟨guardedBy_sound _ _ _ ?_, guardedBy_sound _ _ _ ?_⟩ <;>
    rcases runDeploy1_shape inputs w h with ⟨e, hq⟩ | ⟨g, e, hq⟩ | ⟨g, i, hq⟩ |
      ⟨g, i, hq⟩ | ⟨g, i, e, hq, -⟩ | ⟨g, i, r, hq, -⟩ <;>
    simp [hq, guardedBy, isDeployCall, isDetachCall, isActiveTagCall,
      isReattachCall]

/-- Witness for C5 at concrete blue-green inputs. -/
theorem runDeploy1_bracketing_witness :
    (∀ l₁ l₂ c, (runDeploy1 blueGreenInputs sampleWorld).trace = l₁ ++ c :: l₂ →
      isDeployCall c = true → ∃ a ∈ l₁, isDetachCall a = true) ∧
    (∀ l₁ l₂ c, (runDeploy1 blueGreenInputs sampleWorld).trace = l₁ ++ c :: l₂ →
      isActiveTagCall c = true → ∃ a ∈ l₁, isReattachCall a = true) :=
  runDeploy1_bracketing blueGreenInputs sampleWorld (by decide)

/-! ### C6: deployment failure propagates and skips scale-down -/

/-- C6: when the first `getDeployment` response of a non-in-place run is a
failure terminal, any run that reaches the deployment step ends with the
propagated deployment failure (the Error the status-poll loop throws
there), and no run ever calls `scale` DOWN, the reattach
`updateDeploymentGroup`, or the active-tagging `updateTags`. -/
theorem runDeploy1_deploy_failure (inputs : Inputs) (w : World)
    (r : GetDeploymentResponse) (rest : List GetDeploymentResponse)
    (h : inputs.deploymentType ≠ "in-place")
    (hw : w.deployResponses = r :: rest)
    (h1 : r.deploymentInfo.status ≠ "Succeeded")
    (h2 : r.deploymentInfo.status ∉ ongoingStatus) :
    (Call.deploy ∈ (runDeploy1 inputs w).trace →
      (runDeploy1 inputs w).result = Except.error (RunError.deployError
        (DeployError.thrown ⟨"[object Object]", none, none⟩))) ∧
    (∀ g, Call.scaleCall "DOWN" g ∉ (runDeploy1 inputs w).trace) ∧
    (∀ g gs, Call.updateDeploymentGroup (g :: gs) ∉ (runDeploy1 inputs w).trace) ∧
    (∀ i, Call.updateTagsCall i "" ∉ (runDeploy1 inputs w).trace) := by
  have hfail : (waitForBuildEndTime 30000 15000 w.newDeploymentId
      w.deployResponses).1 = Except.error (DeployError.thrown
        ⟨"[object Object]", none, none⟩) := by
    rw [hw]
    exact waitForBuildEndTime_failure_terminal r rest 30000 15000
      w.newDeploymentId h1 h2
  rcases runDeploy1_shape inputs w h with ⟨e, hq⟩ | ⟨g, e, hq⟩ | ⟨g, i, hq⟩ |
    ⟨g, i, hq⟩ | ⟨g, i, e, hq, hB⟩ | ⟨g, i, r', hq, hB⟩
  · refine ⟨?_, ?_, ?_, ?_⟩ <;> simp [hq]
  · refine ⟨?_, ?_, ?_, ?_⟩ <;> simp [hq]
  · refine ⟨?_, ?_, ?_, ?_⟩ <;> simp [hq]
  · refine ⟨?_, ?_, ?_, ?_⟩ <;> simp [hq]
  · rw [hB] at hfail
    rw [Except.error.injEq] at hfail
    subst hfail
    refine ⟨fun _ => ?_, ?_, ?_, ?_⟩ <;> simp [hq]
  · rw [hB] at hfail
    simp at hfail

/-- A world whose first deployment status fetch reports the Failed terminal
with a HEALTH_CONSTRAINTS error payload. -/
def failWorld : World :=
  ⟨["production-academy-asg"], fun _ => [], fun _ => none, [], true, "d-fail",
    [⟨⟨"Failed", "overview"⟩, ⟨"HEALTH_CONSTRAINTS", "health check failed"⟩⟩]⟩

/-- Witness for C6 at a blue-green run whose first poll reports Failed with
code HEALTH_CONSTRAINTS. -/
theorem runDeploy1_deploy_failure_witness :
    (Call.deploy ∈ (runDeploy1 blueGreenInputs failWorld).trace →
      (runDeploy1 blueGreenInputs failWorld).result = Except.error
        (RunError.deployError
          (DeployError.thrown ⟨"[object Object]", none, none⟩))) ∧
    (∀ g, Call.scaleCall "DOWN" g ∉ (runDeploy1 blueGreenInputs failWorld).trace) ∧
    (∀ g gs, Call.updateDeploymentGroup (g :: gs) ∉
      (runDeploy1 blueGreenInputs failWorld).trace) ∧
    (∀ i, Call.updateTagsCall i "" ∉ (runDeploy1 blueGreenInputs failWorld).trace) :=
  runDeploy1_deploy_failure blueGreenInputs failWorld
    ⟨⟨"Failed", "overview"⟩, ⟨"HEALTH_CONSTRAINTS", "health check failed"⟩⟩ []
    (by decide) rfl (by decide) (by decide)
